import Mathlib

/-!
Shallow embedding of the engagement-lifecycle core of the freelance
marketplace application (Remix + Prisma).  The database is modelled as
lists of rows; each Remix `action` that the claims concern is translated
into a pure Lean function from a database state and the request fields to
an `Except`-result.  Prisma semantics modelled here:

* `update` on a missing row throws (`DbErr.recordNotFound`);
* `create` with a dangling required foreign key throws (`DbErr.fkViolation`);
* `create` violating a `@unique` column throws (`DbErr.uniqueViolation`);
* nested writes (`project.update` with nested `payment.create` and
  `post.update`) are atomic: either all sub-writes apply or none.

The Prisma schema file itself is not part of the sources; the shapes of
the relations are taken from the way the routes use them:
`Post`–`Project` is to-many (`post.project.length`, `post.project[0]` in
the post lists), so `project.create` carries no uniqueness constraint;
`Project`–`Payment` is to-one (`project.payment` tested against `null`),
so the nested `payment.create` enforces a unique `Payment.projectId`; and
`project.feedback` is read as a list.

An exception thrown by a database call surfaces to the client as an
unhandled server error (`AppErr.dbError`); `badRequest` responses carry
the message string the route builds.
-/

namespace Freelance

/-- `Post.status` values (Prisma `PostStatus` enum). -/
inductive PostStatus
  | «open» | in_progress | completed | closed
  deriving DecidableEq, Repr

/-- `Project.status` values (Prisma `ProjectStatus` enum). -/
inductive ProjectStatus
  | in_progress | payment_pending | completed
  deriving DecidableEq, Repr

/-- A `Post` row.  `budget` and `duration` keep the raw form-field strings
(the route stores `Number(budget)` / `Number(duration)`; the numeric
conversion plays no part in any claim, which concern validation and row
creation). -/
structure Post where
  id : String
  title : String
  description : String
  budget : String
  duration : String
  deadline : String
  status : PostStatus
  categoryId : String
  customerId : String
  deriving DecidableEq, Repr

/-- A `Bid` row (price and comment omitted: no claim depends on them). -/
structure Bid where
  id : String
  postId : String
  editorId : String
  approved : Bool
  declined : Bool
  deriving DecidableEq, Repr

/-- A `Project` row. -/
structure Project where
  id : String
  postId : String
  customerId : String
  editorId : String
  status : ProjectStatus
  deriving DecidableEq, Repr

/-- A `Payment` row (`amount` kept as the raw form string, `paymentMethod`
as its string name). -/
structure Payment where
  id : String
  amount : String
  paymentMethod : String
  customerId : String
  editorId : String
  projectId : String
  deriving DecidableEq, Repr

/-- A `Feedback` row. -/
structure Feedback where
  id : String
  rating : Int
  comment : String
  customerId : String
  projectId : String
  deriving DecidableEq, Repr

/-- The relational store: one list per table touched by the claims. -/
structure DB where
  posts : List Post
  bids : List Bid
  projects : List Project
  payments : List Payment
  feedbacks : List Feedback
  deriving DecidableEq, Repr

/-- Errors thrown by the database layer (Prisma known request errors). -/
inductive DbErr
  | recordNotFound
  | fkViolation
  | uniqueViolation
  deriving DecidableEq, Repr

/-- What a route call produces when it does not succeed: an unhandled
database exception (HTTP 500), or the `badRequest` the route itself
builds. -/
inductive AppErr
  | dbError (e : DbErr)
  | badRequest (msg : String)
  deriving DecidableEq, Repr

/-- `db.post.update({ where: { id }, data })`: throws `recordNotFound` when
no row matches. -/
def updatePost (db : DB) (id : String) (f : Post → Post) : Except DbErr DB :=
  if db.posts.any (fun p => p.id == id) then
    .ok { db with posts := db.posts.map (fun p => if p.id == id then f p else p) }
  else .error .recordNotFound

/-- `db.bid.update({ where: { id }, data })`. -/
def updateBid (db : DB) (id : String) (f : Bid → Bid) : Except DbErr DB :=
  if db.bids.any (fun b => b.id == id) then
    .ok { db with bids := db.bids.map (fun b => if b.id == id then f b else b) }
  else .error .recordNotFound

/-- `db.project.update({ where: { id }, data })`. -/
def updateProject (db : DB) (id : String) (f : Project → Project) : Except DbErr DB :=
  if db.projects.any (fun pr => pr.id == id) then
    .ok { db with projects := db.projects.map (fun pr => if pr.id == id then f pr else pr) }
  else .error .recordNotFound

/-- `db.project.create`: checks the required `post` foreign key.  The
`Post`–`Project` relation is to-many (the post lists read
`post.project.length` and `post.project[0]`), so there is no uniqueness
constraint: a second project on the same post is simply appended. -/
def createProject (db : DB) (pr : Project) : Except DbErr DB :=
  if db.posts.any (fun p => p.id == pr.postId) then
    .ok { db with projects := db.projects ++ [pr] }
  else .error .fkViolation

/-- `db.bid.create`: checks the required `post` foreign key; the schema has
no uniqueness constraint on bids. -/
def createBid (db : DB) (b : Bid) : Except DbErr DB :=
  if db.posts.any (fun p => p.id == b.postId) then
    .ok { db with bids := db.bids ++ [b] }
  else .error .fkViolation

/--
The `action` of `customer+/posts+/$postId+/index.tsx` — the only server
entry point for approving or declining a bid.  `userId` is the session
user (`requireUserId`); `postId`, `editorId`, `bidId`, `intent` come from
the submitted form (every field of `createProjectSchema` is `optional`, so
validation never rejects).  `freshId` stands for the id Prisma generates
for the created `Project` row.

For `intent === "approve"` the route runs, in order and with no
authorization or state check: `project.create`, `post.update` (status
`in_progress`), `bid.update` (`approved: true, declined: false`).  For
`intent === "decline"` it runs only `bid.update`
(`approved: false, declined: true`).  Any other intent returns
`json({})` leaving the store untouched.
-/
def decideBidAction (db : DB) (userId postId editorId bidId intent freshId : String) :
    Except AppErr DB :=
  if intent == "approve" then
    match createProject db
        { id := freshId, postId := postId, customerId := userId,
          editorId := editorId, status := .in_progress } with
    | .error e => .error (.dbError e)
    | .ok db1 =>
      match updatePost db1 postId (fun p => { p with status := .in_progress }) with
      | .error e => .error (.dbError e)
      | .ok db2 =>
        match updateBid db2 bidId (fun b => { b with approved := true, declined := false }) with
        | .error e => .error (.dbError e)
        | .ok db3 => .ok db3
  else if intent == "decline" then
    match updateBid db bidId (fun b => { b with approved := false, declined := true }) with
    | .error e => .error (.dbError e)
    | .ok db1 => .ok db1
  else .ok db

/--
The `action` of `api+/completeProject.tsx` — the only server entry point
behind the spec's `markComplete`.  The route never calls `requireUserId`
and reads only `projectId` from the form: a missing id yields
`{ success: false, error: "Project ID is required" }`; otherwise it runs
`project.update` setting `status: payment_pending` unconditionally — no
editor check and no check of the current status.
-/
def completeProjectAction (db : DB) (projectId : Option String) : Except AppErr DB :=
  match projectId with
  | none => .error (.badRequest "Project ID is required")
  | some pid =>
    match updateProject db pid (fun pr => { pr with status := .payment_pending }) with
    | .error e => .error (.dbError e)
    | .ok db1 => .ok db1

/--
The `action` of `api+/payment.tsx` — the only server entry point behind
the spec's `capturePayment`.  The route never calls `requireUserId`;
`projectId`, `editorId`, `customerId`, `amount`, `paymentMethod` all come
straight from the form.  It runs a single nested `project.update`:
create the 1:1 `payment`, set project `status: completed`, and update the
related post to `status: completed`.  Prisma nested writes are atomic, the
nested `payment.create` enforces the unique `Payment.projectId` of the
1:1 relation, and no application-level check of ownership, status, or an
existing payment is made.  `paymentId` stands for the generated row id.
-/
def paymentAction (db : DB)
    (projectId editorId customerId amount paymentMethod paymentId : String) :
    Except AppErr DB :=
  match db.projects.find? (fun pr => pr.id == projectId) with
  | none => .error (.dbError .recordNotFound)
  | some pr =>
    if db.payments.any (fun pay => pay.projectId == projectId) then
      .error (.dbError .uniqueViolation)
    else if db.posts.any (fun p => p.id == pr.postId) then
      .ok { db with
        projects := db.projects.map
          (fun q => if q.id == projectId then { q with status := .completed } else q),
        payments := db.payments ++
          [{ id := paymentId, amount := amount, paymentMethod := paymentMethod,
             customerId := customerId, editorId := editorId, projectId := projectId }],
        posts := db.posts.map
          (fun p => if p.id == pr.postId then { p with status := .completed } else p) }
    else .error (.dbError .recordNotFound)

/--
The `action` of `editor+/posts+/$postId.bid.tsx` — the spec's `submitBid`.
`userId` is the session user; `CreateBidSchema` requires `price` and
`comment` to be non-empty strings (`postId` is only required to be
present).  On passing validation the route runs `bid.create` directly:
it never loads the post, so neither the post's existence (beyond the
foreign key the database enforces) nor its status is checked.  `bidId`
stands for the generated row id; `approved`/`declined` take their schema
defaults `false`.
-/
def submitBidAction (db : DB) (userId postId price comment bidId : String) :
    Except AppErr DB :=
  if price.isEmpty || comment.isEmpty then
    .error (.badRequest "fieldErrors")
  else
    match createBid db
        { id := bidId, postId := postId, editorId := userId,
          approved := false, declined := false } with
    | .error e => .error (.dbError e)
    | .ok db1 => .ok db1

/--
The post-creation `action` (`customer+/posts+/new` route family) with
`CreatePostSchema` from `app/lib/zod.schema.ts`: `title`, `description`,
`budget`, `duration` must be non-empty strings (`z.string().min(1)` —
the only budget/duration validation, despite the error messages speaking
of positive numbers), `deadline` any string, `categoryId` optional.  On
success `post.create` stores the fields with `status: "open"`.
`postId` stands for the generated row id.
-/
def createPostAction (db : DB)
    (userId categoryId title description budget duration deadline postId : String) :
    Except AppErr DB :=
  if title.isEmpty || description.isEmpty || budget.isEmpty || duration.isEmpty then
    .error (.badRequest "fieldErrors")
  else
    .ok { db with posts := db.posts ++
      [{ id := postId, title := title, description := description,
         budget := budget, duration := duration, deadline := deadline,
         status := .«open», categoryId := categoryId, customerId := userId }] }

/--
The feedback `action` (API route): validates
`rating ∈ [1,5] (integer), comment ≠ "", projectId ≠ ""` via
`feedbackSchema`, loads the project with its `feedback` list, rejects a
missing project, a caller other than `project.customerId`, and a project
that already has feedback, and otherwise creates the `Feedback` row.  The
project's status is never consulted.  `fbId` stands for the generated
row id.
-/
def leaveFeedbackAction (db : DB) (userId : String) (rating : Int)
    (comment projectId fbId : String) : Except AppErr DB :=
  if rating < 1 || 5 < rating || comment.isEmpty || projectId.isEmpty then
    .error (.badRequest "Invalid form data")
  else
    match db.projects.find? (fun pr => pr.id == projectId) with
    | none => .error (.badRequest "Project not found")
    | some pr =>
      if pr.customerId == userId then
        if 0 < (db.feedbacks.filter (fun fb => fb.projectId == projectId)).length then
          .error (.badRequest "Feedback has already been submitted for this project")
        else
          .ok { db with feedbacks := db.feedbacks ++
            [{ id := fbId, rating := rating, comment := comment,
               customerId := userId, projectId := projectId }] }
      else .error (.badRequest "Unauthorized to leave feedback for this project")

/-! ### `app/lib/s3-utils.ts`

Strings are modelled as `List Char`.  `getS3Url` is the template literal
of the source; the separator constants spell out `"https://"`, `".s3."`
and `".amazonaws.com/"`.  The source's default `bucket`/`region`
(`"s3freelance"`, `"us-west-2"`) are irrelevant to the round-trip claim,
which quantifies over both. -/

/-- The characters of `"https://"`. -/
def httpsPrefix : List Char := ['h', 't', 't', 'p', 's', ':', '/', '/']

/-- The characters of `".s3."`. -/
def s3Sep : List Char := ['.', 's', '3', '.']

/-- The characters of `".amazonaws.com/"`. -/
def amazonSuffix : List Char :=
  ['.', 'a', 'm', 'a', 'z', 'o', 'n', 'a', 'w', 's', '.', 'c', 'o', 'm', '/']

/-- `getS3Url(key, { bucket, region })` =
`` `https://${bucket}.s3.${region}.amazonaws.com/${key}` ``. -/
def getS3Url (key bucket region : List Char) : List Char :=
  httpsPrefix ++ (bucket ++ (s3Sep ++ (region ++ (amazonSuffix ++ key))))

/-- Split `xs` at the first occurrence of `pat`, returning the part
before and the part after the occurrence. -/
def splitFirst (pat : List Char) : List Char → Option (List Char × List Char)
  | [] => if pat.isPrefixOf ([] : List Char) then some ([], []) else none
  | c :: rest =>
    if pat.isPrefixOf (c :: rest) then some ([], (c :: rest).drop pat.length)
    else (splitFirst pat rest).map (fun q => (c :: q.1, q.2))

/-- Strip a mandatory prefix. -/
def dropPrefixOpt (pre xs : List Char) : Option (List Char) :=
  if pre.isPrefixOf xs then some (xs.drop pre.length) else none

/-- The parse direction of the spec's round-trip property: split off the
`https://` prefix, split at the first `.s3.`, then at the first
`.amazonaws.com/`, recovering `(key, bucket, region)`. -/
def parseS3Url (url : List Char) : Option (List Char × List Char × List Char) :=
  match dropPrefixOpt httpsPrefix url with
  | none => none
  | some rest =>
    match splitFirst s3Sep rest with
    | none => none
    | some (bucket, rest2) =>
      match splitFirst amazonSuffix rest2 with
      | none => none
      | some (region, key) => some (key, bucket, region)

/-! ### `app/lib/customer.server.ts` and `app/lib/editor.server.ts`

`bcrypt.compare` is an external collaborator and is passed in as a
boolean-valued function `compare plaintext hash`.  `findUnique` on the
unique `email` column is `List.find?`.  The JS test
`!record.password` is falsy exactly on the empty string (the column is a
non-null `String`). -/

/-- A `Customer` row (the columns `createCustomer` writes). -/
structure Customer where
  id : String
  firstName : String
  lastName : String
  email : String
  password : String
  dob : String
  phoneNo : String
  address : String
  deriving DecidableEq, Repr

/-- A `Customer` with the `password` field removed — the shape
`verifyCustomerLogin` returns, built by destructuring away `password`. -/
structure CustomerSansPassword where
  id : String
  firstName : String
  lastName : String
  email : String
  dob : String
  phoneNo : String
  address : String
  deriving DecidableEq, Repr

/-- The destructuring `const { password: _password, ...rest } = customer`. -/
def Customer.sansPassword (c : Customer) : CustomerSansPassword :=
  { id := c.id, firstName := c.firstName, lastName := c.lastName,
    email := c.email, dob := c.dob, phoneNo := c.phoneNo, address := c.address }

/-- `verifyCustomerLogin({ email, password })`. -/
def verifyCustomerLogin (customers : List Customer) (compare : String → String → Bool)
    (email password : String) : Option CustomerSansPassword :=
  match customers.find? (fun c => c.email == email) with
  | none => none
  | some c =>
    if c.password == "" then none
    else if compare password c.password then some c.sansPassword
    else none

/-- An `Editor` row (the columns `createEditor` writes). -/
structure Editor where
  id : String
  firstName : String
  lastName : String
  email : String
  password : String
  experience : String
  portfolio : String
  skills : String
  awards : String
  dob : String
  phoneNo : String
  address : String
  deriving DecidableEq, Repr

/-- An `Editor` with the `password` field removed. -/
structure EditorSansPassword where
  id : String
  firstName : String
  lastName : String
  email : String
  experience : String
  portfolio : String
  skills : String
  awards : String
  dob : String
  phoneNo : String
  address : String
  deriving DecidableEq, Repr

/-- The destructuring `const { password: _password, ...rest } = editor`. -/
def Editor.sansPassword (e : Editor) : EditorSansPassword :=
  { id := e.id, firstName := e.firstName, lastName := e.lastName,
    email := e.email, experience := e.experience, portfolio := e.portfolio,
    skills := e.skills, awards := e.awards, dob := e.dob,
    phoneNo := e.phoneNo, address := e.address }

/-- `verifyEditorLogin({ email, password })`. -/
def verifyEditorLogin (editors : List Editor) (compare : String → String → Bool)
    (email password : String) : Option EditorSansPassword :=
  match editors.find? (fun e => e.email == email) with
  | none => none
  | some e =>
    if e.password == "" then none
    else if compare password e.password then some e.sansPassword
    else none

/-! ### Concrete states used as failing inputs / counterexamples -/

/-- A post whose bidding is settled: post `p1` is `in_progress`, bid `b1`
is approved, bid `b2` is still pending, and the project created by the
approval exists. -/
def dbApproved : DB :=
  { posts := [{ id := "p1", title := "thumbnail", description := "d",
                budget := "500", duration := "30", deadline := "2024-12-31",
                status := .in_progress, categoryId := "cat1", customerId := "c1" }],
    bids := [{ id := "b1", postId := "p1", editorId := "e1",
               approved := true, declined := false },
             { id := "b2", postId := "p1", editorId := "e2",
               approved := false, declined := false }],
    projects := [{ id := "pr1", postId := "p1", customerId := "c1",
                   editorId := "e1", status := .in_progress }],
    payments := [], feedbacks := [] }

/-- An open post `p1` owned by customer `c1` with one pending bid `b1` by
editor `e1`. -/
def dbOpenPost : DB :=
  { posts := [{ id := "p1", title := "logo", description := "d",
                budget := "500", duration := "30", deadline := "2024-12-31",
                status := .«open», categoryId := "cat1", customerId := "c1" }],
    bids := [{ id := "b1", postId := "p1", editorId := "e1",
               approved := false, declined := false }],
    projects := [], payments := [], feedbacks := [] }

/-- A project `pr1` of customer `c1` still `in_progress` (payment not yet
due), with its post, and no payment. -/
def dbProjectInProgress : DB :=
  { posts := [{ id := "p1", title := "video", description := "d",
                budget := "500", duration := "30", deadline := "2024-12-31",
                status := .in_progress, categoryId := "cat1", customerId := "c1" }],
    bids := [{ id := "b1", postId := "p1", editorId := "e1",
               approved := true, declined := false }],
    projects := [{ id := "pr1", postId := "p1", customerId := "c1",
                   editorId := "e1", status := .in_progress }],
    payments := [], feedbacks := [] }

/-- A fully completed project `pr1` (payment captured). -/
def dbProjectCompleted : DB :=
  { posts := [{ id := "p1", title := "video", description := "d",
                budget := "500", duration := "30", deadline := "2024-12-31",
                status := .completed, categoryId := "cat1", customerId := "c1" }],
    bids := [{ id := "b1", postId := "p1", editorId := "e1",
               approved := true, declined := false }],
    projects := [{ id := "pr1", postId := "p1", customerId := "c1",
                   editorId := "e1", status := .completed }],
    payments := [{ id := "pay1", amount := "450", paymentMethod := "CREDIT_CARD",
                   customerId := "c1", editorId := "e1", projectId := "pr1" }],
    feedbacks := [] }

/-- The empty store. -/
def dbEmpty : DB :=
  { posts := [], bids := [], projects := [], payments := [], feedbacks := [] }

/-- Claim C1: the claim says any further `decideBid` call against a Post
with an approved Bid is rejected with `InvalidStateError`, leaving Bids,
Post and Projects unchanged.  The code has no such check: a `decline`
call on the pending bid `b2` of the already-settled post `p1` succeeds
and mutates the bid (first conjunct), and an `approve` call also
succeeds, performing all three writes again — a second Project for the
same post is created and a second Bid ends up approved (second
conjunct). -/
theorem claim1_decide_after_approval :
    decideBidAction dbApproved "c1" "p1" "e2" "b2" "decline" "pr2" =
      .ok { dbApproved with
              bids := [{ id := "b1", postId := "p1", editorId := "e1",
                         approved := true, declined := false },
                       { id := "b2", postId := "p1", editorId := "e2",
                         approved := false, declined := true }] }
    ∧ decideBidAction dbApproved "c1" "p1" "e2" "b2" "approve" "pr2" =
        .ok { posts := [{ id := "p1", title := "thumbnail", description := "d",
                          budget := "500", duration := "30",
                          deadline := "2024-12-31", status := .in_progress,
                          categoryId := "cat1", customerId := "c1" }],
              bids := [{ id := "b1", postId := "p1", editorId := "e1",
                         approved := true, declined := false },
                       { id := "b2", postId := "p1", editorId := "e2",
                         approved := true, declined := false }],
              projects := [{ id := "pr1", postId := "p1", customerId := "c1",
                             editorId := "e1", status := .in_progress },
                           { id := "pr2", postId := "p1", customerId := "c1",
                             editorId := "e2", status := .in_progress }],
              payments := [], feedbacks := [] } := by
  constructor <;> rfl

/-- Claim C2: the claim says a `decideBid` call by a caller who is not the
Post's owning customer fails with `AuthorizationError` and performs no
writes.  The code never compares the session user with
`post.customerId`: customer `c2` approving a bid on `c1`'s post succeeds,
performing all three writes and creating a Project owned by the caller
`c2`. -/
theorem claim2_nonowner_decide :
    decideBidAction dbOpenPost "c2" "p1" "e1" "b1" "approve" "pr1" =
      .ok { posts := [{ id := "p1", title := "logo", description := "d",
                        budget := "500", duration := "30", deadline := "2024-12-31",
                        status := .in_progress, categoryId := "cat1",
                        customerId := "c1" }],
            bids := [{ id := "b1", postId := "p1", editorId := "e1",
                       approved := true, declined := false }],
            projects := [{ id := "pr1", postId := "p1", customerId := "c2",
                           editorId := "e1", status := .in_progress }],
            payments := [], feedbacks := [] } := by
  rfl

/-- The store after the unauthorized out-of-state capture of
`claim3_capture_payment`: payment recorded for `c999`, project and post
`completed`. -/
def dbAfterRogueCapture : DB :=
  { posts := [{ id := "p1", title := "video", description := "d",
                budget := "500", duration := "30", deadline := "2024-12-31",
                status := .completed, categoryId := "cat1", customerId := "c1" }],
    bids := dbProjectInProgress.bids,
    projects := [{ id := "pr1", postId := "p1", customerId := "c1",
                   editorId := "e1", status := .completed }],
    payments := [{ id := "pay9", amount := "450", paymentMethod := "CREDIT_CARD",
                   customerId := "c999", editorId := "e1", projectId := "pr1" }],
    feedbacks := [] }

/-- Claim C3: the claim says `capturePayment` succeeds only for the
Project's owning customer, only from `payment_pending`, and only when no
Payment exists, and that a second capture is rejected with
`ConflictError`.  The route makes none of those application-level checks:
a capture naming the stranger `c999` on the still-`in_progress` project
`pr1` succeeds, records the Payment, and completes project and post
(first conjunct).  A second capture is stopped only by the database's
unique constraint on `Payment.projectId` — an unhandled 500, not a
`ConflictError` (second conjunct, which also shows no second Payment row
can appear). -/
theorem claim3_capture_payment :
    paymentAction dbProjectInProgress "pr1" "e1" "c999" "450" "CREDIT_CARD" "pay9" =
      .ok dbAfterRogueCapture
    ∧ paymentAction dbAfterRogueCapture "pr1" "e1" "c1" "450" "CREDIT_CARD" "pay10" =
        .error (.dbError .uniqueViolation) := by
  constructor <;> rfl

/-- Claim C4: the claim says `markComplete` transitions only
`in_progress → payment_pending` and only for the assigned editor.  The
route has no session check and no status check: a request naming a
`completed` project moves it back to `payment_pending`. -/
theorem claim4_mark_complete :
    completeProjectAction dbProjectCompleted (some "pr1") =
      .ok { dbProjectCompleted with
              projects := [{ id := "pr1", postId := "p1", customerId := "c1",
                             editorId := "e1", status := .payment_pending }] } := by
  rfl

/-- Claim C5: the claim says `submitBid` fails with `NotFoundError` for a
missing Post and with `InvalidStateError` for a non-`open` Post, creating
no Bid.  The code never loads the post: a bid on the `in_progress` post
`p1` is created and the call succeeds (first conjunct), and a bid on a
nonexistent post fails only with the database's raw foreign-key
violation — an unhandled 500, not a `NotFoundError` (second conjunct). -/
theorem claim5_submit_bid :
    submitBidAction dbProjectInProgress "e2" "p1" "450" "i can do it" "b9" =
      .ok { dbProjectInProgress with
              bids := dbProjectInProgress.bids ++
                [{ id := "b9", postId := "p1", editorId := "e2",
                   approved := false, declined := false }] }
    ∧ submitBidAction dbProjectInProgress "e2" "nosuchpost" "450" "hi" "b9" =
        .error (.dbError .fkViolation) := by
  constructor <;> rfl

/-- Claim C8: the claim says `createPost` fails with `ValidationError`
whenever budget or duration is non-positive.  `CreatePostSchema` only
requires the budget and duration *strings* to be non-empty (even though
its own error messages read "must be a positive number"): a zero budget
and a negative duration both pass validation and the Post row is created
with status `open`. -/
theorem claim8_create_post :
    createPostAction dbEmpty "c1" "cat1" "Logo" "Need a logo" "0" "-5"
        "2024-12-31T00:00:00Z" "p1" =
      .ok { dbEmpty with
              posts := [{ id := "p1", title := "Logo", description := "Need a logo",
                          budget := "0", duration := "-5",
                          deadline := "2024-12-31T00:00:00Z", status := .«open»,
                          categoryId := "cat1", customerId := "c1" }] } := by
  rfl

/-! ### Helper lemmas -/

/-- `find?` after a Prisma-style `update` map: updating the row with id
`i` by an id-preserving `f` turns the found row into `f` of it. -/
theorem find?_map_ite {α : Type} (idf : α → String) (f : α → α)
    (hf : ∀ x, idf (f x) = idf x) (i : String) (l : List α) :
    (l.map (fun x => if idf x == i then f x else x)).find? (fun x => idf x == i) =
      (l.find? (fun x => idf x == i)).map f := by
  have hcomp : ((fun x => idf x == i) ∘ (fun x => if idf x == i then f x else x)) =
      (fun x => idf x == i) := by
    funext x
    by_cases hx : (idf x == i) = true
    · simp [Function.comp, hx, hf x]
    · simp [Function.comp, hx]
  rw [List.find?_map, hcomp]
  cases hfind : List.find? (fun x => idf x == i) l with
  | none => rfl
  | some b =>
    have hb : (idf b == i) = true := List.find?_some (p := fun x => idf x == i) hfind
    show some (if (idf b == i) = true then f b else b) = some (f b)
    rw [if_pos hb]

/-- A found row is in the list and satisfies the predicate, so `any` holds. -/
theorem any_of_find?_eq_some {α : Type} (pred : α → Bool) (l : List α) (a : α)
    (h : l.find? pred = some a) : l.any pred = true := by
  rw [List.any_eq_true]
  exact ⟨a, List.mem_of_find?_eq_some h, List.find?_some h⟩

/-- Claim C6 counterexample: the server takes the created Project's
`editorId` from the request form, not from the chosen Bid.  Approving bid
`b1` (whose editor is `e1`) with a forged form field `editorId = "eX"`
succeeds, and the created Project's `editorId` is `"eX"`, not the chosen
Bid's editor — refuting the claim as stated. -/
theorem claim6_counterexample :
    decideBidAction dbOpenPost "c1" "p1" "eX" "b1" "approve" "prX" =
      .ok { posts := [{ id := "p1", title := "logo", description := "d",
                        budget := "500", duration := "30", deadline := "2024-12-31",
                        status := .in_progress, categoryId := "cat1",
                        customerId := "c1" }],
            bids := [{ id := "b1", postId := "p1", editorId := "e1",
                       approved := true, declined := false }],
            projects := [{ id := "prX", postId := "p1", customerId := "c1",
                           editorId := "eX", status := .in_progress }],
            payments := [], feedbacks := [] }
    ∧ dbOpenPost.bids.map (fun b => b.editorId) = ["e1"] := by
  constructor <;> rfl

/-- Claim C6 (amended): when the request's `editorId` field equals the
chosen Bid's `editorId` — as the UI always submits — a successful
`approve` establishes everything the claim lists: the chosen Bid gets
`approved = true, declined = false`; a Project row exists with status
`in_progress`, the given `postId`, the caller as `customerId`, and the
chosen Bid's editor as `editorId`; and the Post's status becomes
`in_progress`.  The hypotheses are exactly the conditions under which the
call succeeds: the Post and Bid exist and the Post has no Project yet. -/
theorem claim6_approve_effects (db : DB) (userId postId editorId bidId freshId : String)
    (b : Bid) (p : Post)
    (hb : db.bids.find? (fun x => x.id == bidId) = some b)
    (hp : db.posts.find? (fun x => x.id == postId) = some p)
    (hnopr : db.projects.any (fun q => q.postId == postId) = false)
    (he : editorId = b.editorId) :
    ∃ db',
      decideBidAction db userId postId editorId bidId "approve" freshId = .ok db'
      ∧ db'.bids.find? (fun x => x.id == bidId) =
          some { b with approved := true, declined := false }
      ∧ ({ id := freshId, postId := postId, customerId := userId,
           editorId := b.editorId, status := .in_progress } : Project) ∈ db'.projects
      ∧ db'.posts.find? (fun x => x.id == postId) =
          some { p with status := .in_progress } := by
  have hpostany : db.posts.any (fun x => x.id == postId) = true :=
    any_of_find?_eq_some _ _ _ hp
  have hbidany : db.bids.any (fun x => x.id == bidId) = true :=
    any_of_find?_eq_some _ _ _ hb
  refine ⟨{ db with
              projects := db.projects ++
                [{ id := freshId, postId := postId, customerId := userId,
                   editorId := editorId, status := .in_progress }],
              posts := db.posts.map
                (fun x => if x.id == postId then { x with status := .in_progress } else x),
              bids := db.bids.map
                (fun x => if x.id == bidId then
                  { x with approved := true, declined := false } else x) },
          ?_, ?_, ?_, ?_⟩
  · unfold decideBidAction createProject updatePost updateBid
    simp [hpostany, hnopr, hbidany]
  · have := find?_map_ite Bid.id
      (fun x => { x with approved := true, declined := false })
      (fun _ => rfl) bidId db.bids
    simp only [this, hb]
    rfl
  · simp [he]
  · have := find?_map_ite Post.id
      (fun x => { x with status := PostStatus.in_progress })
      (fun _ => rfl) postId db.posts
    simp only [this, hp]
    rfl

/-- Witness for `claim6_approve_effects` at the concrete open post. -/
theorem claim6_approve_effects_witness :
    ∃ db',
      decideBidAction dbOpenPost "c1" "p1" "e1" "b1" "approve" "pr1" = .ok db'
      ∧ db'.bids.find? (fun x => x.id == "b1") =
          some { id := "b1", postId := "p1", editorId := "e1",
                 approved := true, declined := false }
      ∧ ({ id := "pr1", postId := "p1", customerId := "c1",
           editorId := "e1", status := .in_progress } : Project) ∈ db'.projects
      ∧ db'.posts.find? (fun x => x.id == "p1") =
          some { id := "p1", title := "logo", description := "d",
                 budget := "500", duration := "30", deadline := "2024-12-31",
                 status := .in_progress, categoryId := "cat1",
                 customerId := "c1" } :=
  claim6_approve_effects dbOpenPost "c1" "p1" "e1" "b1" "pr1"
    { id := "b1", postId := "p1", editorId := "e1", approved := false, declined := false }
    { id := "p1", title := "logo", description := "d", budget := "500",
      duration := "30", deadline := "2024-12-31", status := .«open»,
      categoryId := "cat1", customerId := "c1" }
    (by rfl) (by rfl) (by rfl) (by rfl)

/-- Claim C7 counterexample: the feedback route never consults the
project's status.  The owner of the still-`in_progress` project `pr1`
leaves feedback and the row is created — refuting the claim's "only when
… the Project status is completed". -/
theorem claim7_counterexample :
    leaveFeedbackAction dbProjectInProgress "c1" 5 "great work" "pr1" "f1" =
      .ok { dbProjectInProgress with
              feedbacks := [{ id := "f1", rating := 5, comment := "great work",
                              customerId := "c1", projectId := "pr1" }] }
    ∧ dbProjectInProgress.projects.map (fun pr => pr.status) =
        [.in_progress] := by
  constructor <;> rfl

/-- Claim C7 (amended): for a well-formed submission on an existing
project — with no condition on the project's status — the feedback route
rejects a non-owner with the "Unauthorized" `badRequest`, rejects a
project that already has feedback with the "already been submitted"
`badRequest`, creates exactly one `Feedback` row otherwise, and preserves
"at most one Feedback row per project" (hence per (customer, project)
pair). -/
theorem claim7_feedback_rules (db : DB) (userId : String) (rating : Int)
    (comment projectId fbId : String) (pr : Project)
    (hval : 1 ≤ rating ∧ rating ≤ 5 ∧ comment.isEmpty = false ∧ projectId.isEmpty = false)
    (hpr : db.projects.find? (fun q => q.id == projectId) = some pr) :
    (pr.customerId ≠ userId →
      leaveFeedbackAction db userId rating comment projectId fbId =
        .error (.badRequest "Unauthorized to leave feedback for this project"))
    ∧ (pr.customerId = userId →
        db.feedbacks.filter (fun fb => fb.projectId == projectId) ≠ [] →
        leaveFeedbackAction db userId rating comment projectId fbId =
          .error (.badRequest "Feedback has already been submitted for this project"))
    ∧ (pr.customerId = userId →
        db.feedbacks.filter (fun fb => fb.projectId == projectId) = [] →
        leaveFeedbackAction db userId rating comment projectId fbId =
          .ok { db with feedbacks := db.feedbacks ++
            [{ id := fbId, rating := rating, comment := comment,
               customerId := userId, projectId := projectId }] })
    ∧ (∀ db', leaveFeedbackAction db userId rating comment projectId fbId = .ok db' →
        ∀ pid, (db.feedbacks.filter (fun fb => fb.projectId == pid)).length ≤ 1 →
          (db'.feedbacks.filter (fun fb => fb.projectId == pid)).length ≤ 1) := by
  obtain ⟨h1, h2, h3, h4⟩ := hval
  have hn1 : ¬(rating < 1) := by omega
  have hn2 : ¬(5 < rating) := by omega
  have hrun : leaveFeedbackAction db userId rating comment projectId fbId =
      (if pr.customerId == userId then
        (if 0 < (db.feedbacks.filter (fun fb => fb.projectId == projectId)).length then
          .error (.badRequest "Feedback has already been submitted for this project")
        else
          .ok { db with feedbacks := db.feedbacks ++
            [{ id := fbId, rating := rating, comment := comment,
               customerId := userId, projectId := projectId }] })
      else .error (.badRequest "Unauthorized to leave feedback for this project")) := by
    unfold leaveFeedbackAction
    simp [hn1, hn2, h3, h4, hpr]
  refine ⟨?_, ?_, ?_, ?_⟩
  · intro hne
    rw [hrun, if_neg (by simp [hne] : ¬((pr.customerId == userId) = true))]
  · intro heq hfb
    rw [hrun, if_pos (by simp [heq] : (pr.customerId == userId) = true),
        if_pos (by simp [List.length_pos, hfb] :
          0 < (db.feedbacks.filter (fun fb => fb.projectId == projectId)).length)]
  · intro heq hfb
    rw [hrun, if_pos (by simp [heq] : (pr.customerId == userId) = true),
        if_neg (by simp [hfb] :
          ¬(0 < (db.feedbacks.filter (fun fb => fb.projectId == projectId)).length))]
  · intro db' hok pid hle
    rw [hrun] at hok
    by_cases hown : (pr.customerId == userId) = true
    · rw [if_pos hown] at hok
      by_cases hdup :
          0 < (db.feedbacks.filter (fun fb => fb.projectId == projectId)).length
      · rw [if_pos hdup] at hok
        exact absurd hok (by simp)
      · rw [if_neg hdup] at hok
        have hnil : db.feedbacks.filter (fun fb => fb.projectId == projectId) = [] :=
          List.length_eq_zero.mp (Nat.eq_zero_of_not_pos hdup)
        have hdb' : db'.feedbacks = db.feedbacks ++
            [{ id := fbId, rating := rating, comment := comment,
               customerId := userId, projectId := projectId }] := by
          cases hok
          rfl
        rw [hdb', List.filter_append]
        by_cases hpid : (projectId == pid) = true
        · have : projectId = pid := by simpa using hpid
          subst this
          simp [hnil, hpid]
        · simp only [List.filter_cons, List.filter_nil]
          show ((db.feedbacks.filter (fun fb => fb.projectId == pid)) ++
            (if (projectId == pid) = true then _ else _)).length ≤ 1
          rw [if_neg hpid]
          simpa using hle
    · rw [if_neg hown] at hok
      exact absurd hok (by simp)

/-- Witness for `claim7_feedback_rules`: a non-owner on the completed
project gets the unauthorized `badRequest`. -/
theorem claim7_feedback_rules_witness :
    leaveFeedbackAction dbProjectCompleted "c2" 4 "nice" "pr1" "f1" =
      .error (.badRequest "Unauthorized to leave feedback for this project") :=
  (claim7_feedback_rules dbProjectCompleted "c2" 4 "nice" "pr1" "f1"
    { id := "pr1", postId := "p1", customerId := "c1",
      editorId := "e1", status := .completed }
    ⟨by decide, by decide, by rfl, by rfl⟩ (by rfl)).1 (by decide)

/-- A list is a prefix of itself followed by anything. -/
theorem isPrefixOf_append_self (l t : List Char) : l.isPrefixOf (l ++ t) = true := by
  induction l with
  | nil => simp
  | cons a as ih => simp [List.isPrefixOf, ih]

/-- `splitFirst` finds the first occurrence of a pattern that starts with
a character absent from the part before it. -/
theorem splitFirst_append (p : Char) (pt l1 l2 : List Char) (h : ∀ c ∈ l1, c ≠ p) :
    splitFirst (p :: pt) (l1 ++ ((p :: pt) ++ l2)) = some (l1, l2) := by
  induction l1 with
  | nil =>
    have hpre : (p :: pt).isPrefixOf ((p :: pt) ++ l2) = true :=
      isPrefixOf_append_self _ _
    show splitFirst (p :: pt) ((p :: pt) ++ l2) = some ([], l2)
    simp [splitFirst, hpre, List.drop_left]
  | cons c cs ih =>
    have hc : (p == c) = false := by
      simp only [beq_eq_false_iff_ne, ne_eq]
      exact fun hpc => absurd hpc.symm (h c (List.mem_cons_self c cs))
    have hpre : (p :: pt).isPrefixOf (c :: (cs ++ ((p :: pt) ++ l2))) = false := by
      show ((p == c) && pt.isPrefixOf (cs ++ ((p :: pt) ++ l2))) = false
      rw [hc, Bool.false_and]
    have ih' := ih (fun x hx => h x (List.mem_cons_of_mem c hx))
    show splitFirst (p :: pt) (c :: (cs ++ ((p :: pt) ++ l2))) = some (c :: cs, l2)
    simp only [splitFirst]
    rw [hpre, if_neg (by simp : ¬(false = true)), ih']
    rfl

/-- Claim C9 counterexample: a bucket name containing the `.s3.`
separator breaks the parse direction — `getS3Url` with bucket `b.s3.x`
produces a URL whose first `.s3.` occurrence is inside the bucket name,
so parsing does not recover the original bucket and region. -/
theorem claim9_counterexample :
    parseS3Url (getS3Url ['k'] ['b', '.', 's', '3', '.', 'x'] ['r']) ≠
      some (['k'], ['b', '.', 's', '3', '.', 'x'], ['r']) := by
  decide

/-- Claim C9 (amended): `getS3Url` produces exactly
`https://{bucket}.s3.{region}.amazonaws.com/{key}`, and parsing that URL
(strip `https://`, split at the first `.s3.`, split at the first
`.amazonaws.com/`) recovers the same key, bucket, and region, provided
bucket and region contain no `.` character (so neither separator can
occur early). -/
theorem claim9_roundtrip (key bucket region : List Char)
    (hb : ∀ c ∈ bucket, c ≠ '.') (hr : ∀ c ∈ region, c ≠ '.') :
    parseS3Url (getS3Url key bucket region) = some (key, bucket, region) := by
  have h1 : dropPrefixOpt httpsPrefix (getS3Url key bucket region) =
      some (bucket ++ (s3Sep ++ (region ++ (amazonSuffix ++ key)))) := by
    unfold getS3Url dropPrefixOpt
    rw [if_pos (isPrefixOf_append_self httpsPrefix _), List.drop_left]
  have h2 : splitFirst s3Sep (bucket ++ (s3Sep ++ (region ++ (amazonSuffix ++ key)))) =
      some (bucket, region ++ (amazonSuffix ++ key)) := by
    have := splitFirst_append '.' ['s', '3', '.'] bucket
      (region ++ (amazonSuffix ++ key)) hb
    simpa [s3Sep] using this
  have h3 : splitFirst amazonSuffix (region ++ (amazonSuffix ++ key)) =
      some (region, key) := by
    have := splitFirst_append '.'
      ['a', 'm', 'a', 'z', 'o', 'n', 'a', 'w', 's', '.', 'c', 'o', 'm', '/']
      region key hr
    simpa [amazonSuffix] using this
  unfold parseS3Url
  simp only [h1, h2, h3]

/-- Witness for `claim9_roundtrip` at a dot-free bucket and region. -/
theorem claim9_roundtrip_witness :
    parseS3Url (getS3Url ['k', '1']
        ['m', 'y', 'b', 'u', 'c', 'k', 'e', 't']
        ['u', 's', '-', 'w', 'e', 's', 't', '-', '2']) =
      some (['k', '1'],
        ['m', 'y', 'b', 'u', 'c', 'k', 'e', 't'],
        ['u', 's', '-', 'w', 'e', 's', 't', '-', '2']) :=
  claim9_roundtrip _ _ _ (by decide) (by decide)

/-- Claim C10: `verifyCustomerLogin` and `verifyEditorLogin` return
`none` when no principal with the email exists or the password does not
match the stored hash (or the stored hash is empty, which JS treats as
falsy), and on success return exactly the found record with the
`password` field removed — the result type `CustomerSansPassword` /
`EditorSansPassword` has no password field, so the stored hash cannot
appear in any result. -/
theorem claim10_verify_login (customers : List Customer) (editors : List Editor)
    (compare : String → String → Bool) (email pw : String) :
    (customers.find? (fun c => c.email == email) = none →
      verifyCustomerLogin customers compare email pw = none)
    ∧ (∀ c, customers.find? (fun x => x.email == email) = some c →
        compare pw c.password = false →
        verifyCustomerLogin customers compare email pw = none)
    ∧ (∀ r, verifyCustomerLogin customers compare email pw = some r →
        ∃ c, customers.find? (fun x => x.email == email) = some c
          ∧ c.password ≠ "" ∧ compare pw c.password = true ∧ r = c.sansPassword)
    ∧ (editors.find? (fun e => e.email == email) = none →
      verifyEditorLogin editors compare email pw = none)
    ∧ (∀ e, editors.find? (fun x => x.email == email) = some e →
        compare pw e.password = false →
        verifyEditorLogin editors compare email pw = none)
    ∧ (∀ r, verifyEditorLogin editors compare email pw = some r →
        ∃ e, editors.find? (fun x => x.email == email) = some e
          ∧ e.password ≠ "" ∧ compare pw e.password = true ∧ r = e.sansPassword) := by
  refine ⟨?_, ?_, ?_, ?_, ?_, ?_⟩
  · intro h
    unfold verifyCustomerLogin
    rw [h]
  · intro c hc hcmp
    unfold verifyCustomerLogin
    rw [hc]
    show (if (c.password == "") = true then none
      else if compare pw c.password = true then some c.sansPassword else none) = none
    by_cases hp : (c.password == "") = true
    · rw [if_pos hp]
    · rw [if_neg hp, if_neg (by simp [hcmp])]
  · intro r hr
    unfold verifyCustomerLogin at hr
    cases hfind : customers.find? (fun x => x.email == email) with
    | none => rw [hfind] at hr; exact absurd hr (by simp)
    | some c =>
      rw [hfind] at hr
      replace hr : (if (c.password == "") = true then (none : Option CustomerSansPassword)
        else if compare pw c.password = true then some c.sansPassword else none) =
          some r := hr
      by_cases hp : (c.password == "") = true
      · rw [if_pos hp] at hr; exact absurd hr (by simp)
      · rw [if_neg hp] at hr
        by_cases hcmp : (compare pw c.password) = true
        · rw [if_pos hcmp] at hr
          exact ⟨c, rfl, by simpa using hp, hcmp, (Option.some.inj hr).symm⟩
        · rw [if_neg hcmp] at hr; exact absurd hr (by simp)
  · intro h
    unfold verifyEditorLogin
    rw [h]
  · intro e he hcmp
    unfold verifyEditorLogin
    rw [he]
    show (if (e.password == "") = true then none
      else if compare pw e.password = true then some e.sansPassword else none) = none
    by_cases hp : (e.password == "") = true
    · rw [if_pos hp]
    · rw [if_neg hp, if_neg (by simp [hcmp])]
  · intro r hr
    unfold verifyEditorLogin at hr
    cases hfind : editors.find? (fun x => x.email == email) with
    | none => rw [hfind] at hr; exact absurd hr (by simp)
    | some e =>
      rw [hfind] at hr
      replace hr : (if (e.password == "") = true then (none : Option EditorSansPassword)
        else if compare pw e.password = true then some e.sansPassword else none) =
          some r := hr
      by_cases hp : (e.password == "") = true
      · rw [if_pos hp] at hr; exact absurd hr (by simp)
      · rw [if_neg hp] at hr
        by_cases hcmp : (compare pw e.password) = true
        · rw [if_pos hcmp] at hr
          exact ⟨e, rfl, by simpa using hp, hcmp, (Option.some.inj hr).symm⟩
        · rw [if_neg hcmp] at hr; exact absurd hr (by simp)

/-- A stand-in for the external `bcrypt.compare` used by the witness. -/
def cmpDemo : String → String → Bool :=
  fun plain hash => (plain == "secret") && (hash == "hashedsecret")

/-- A concrete customer row for the witness. -/
def customerDemo : Customer :=
  { id := "c1", firstName := "Ada", lastName := "L", email := "ada@mail.com",
    password := "hashedsecret", dob := "1990-01-01", phoneNo := "555",
    address := "1 Main St" }

/-- A concrete editor row for the witness. -/
def editorDemo : Editor :=
  { id := "e1", firstName := "Eli", lastName := "M", email := "eli@mail.com",
    password := "hashedsecret", experience := "5y", portfolio := "site",
    skills := "video", awards := "none", dob := "1991-02-02", phoneNo := "556",
    address := "2 Main St" }

/-- Witness for `claim10_verify_login`: an unknown email and a wrong
password both yield `none`, for customers and editors alike. -/
theorem claim10_verify_login_witness :
    verifyCustomerLogin [customerDemo] cmpDemo "nobody@mail.com" "secret" = none
    ∧ verifyCustomerLogin [customerDemo] cmpDemo "ada@mail.com" "wrong" = none
    ∧ verifyEditorLogin [editorDemo] cmpDemo "nobody@mail.com" "secret" = none
    ∧ verifyEditorLogin [editorDemo] cmpDemo "eli@mail.com" "wrong" = none :=
  ⟨(claim10_verify_login [customerDemo] [editorDemo] cmpDemo
      "nobody@mail.com" "secret").1 (by rfl),
   (claim10_verify_login [customerDemo] [editorDemo] cmpDemo
      "ada@mail.com" "wrong").2.1 customerDemo (by rfl) (by rfl),
   (claim10_verify_login [customerDemo] [editorDemo] cmpDemo
      "nobody@mail.com" "secret").2.2.2.1 (by rfl),
   (claim10_verify_login [customerDemo] [editorDemo] cmpDemo
      "eli@mail.com" "wrong").2.2.2.2.1 editorDemo (by rfl) (by rfl)⟩

end Freelance
